import Mathlib

/-!
Shallow embedding of `src/ai_cv_vertetajs.py` (an AI-powered CV evaluator:
read a job description and candidate CV text files, send each pair to a
chat-completion service, write a JSON report and a Markdown report per
candidate).

Modelling conventions:
* Python `dict`/`list`/scalar values produced by `json.loads` are modelled by
  the inductive type `JVal`.  Objects are association lists in insertion
  order; lookup (`dict.get`) takes the last binding of a key, matching the
  "later wins" semantics of duplicate keys in Python's JSON decoder.
* JSON numbers are modelled as integers (`Int`).  The program's prompts ask
  for an integer 0-100 score and no specification sentence under scrutiny
  involves fractional numbers, so the parser rejects fraction/exponent forms
  that CPython would parse into floats.
* The filesystem is a partial map `String → Option String` for reads; writes
  performed by a run are accumulated in order as `(path, content)` pairs,
  so "overwriting" is "a later write to the same path".
* The completion service, the possibility that the `OpenAI(...)` client
  constructor raises (it sits OUTSIDE the `try` in `izsaukt_modeli`), and
  the wall clock are inputs, packaged in `Env`.
* Exceptions are explicit: a function that can let a Python exception escape
  returns an `Option`/pair with an abort message; an uncaught exception
  aborts `main` (field `aborted` of the run result).
* `print` output is accumulated as a list of console lines.
-/

/-- Python/JSON values as produced by `json.loads`: `None`, booleans,
(integer) numbers, strings, lists, and objects as insertion-ordered
association lists. -/
inductive JVal where
  | null : JVal
  | bool : Bool → JVal
  | num : Int → JVal
  | str : String → JVal
  | arr : List JVal → JVal
  | obj : List (String × JVal) → JVal

/-- The characters Python's `str.strip()` (no argument) removes, restricted
to the ASCII whitespace characters. -/
def isWs (c : Char) : Bool :=
  c = ' ' || c = '\t' || c = '\n' || c = '\r' || c = '\x0b' || c = '\x0c'

/-- Python `str.strip()` on the underlying character list. -/
def pyStripList (l : List Char) : List Char :=
  ((l.dropWhile isWs).reverse.dropWhile isWs).reverse

/-- Python `str.strip()`. -/
def pyStrip (s : String) : String := ⟨pyStripList s.data⟩

/-- Python `needle in hay` for strings: substring containment. -/
def pyIn (needle hay : String) : Prop := needle.data <:+: hay.data

instance (n h : String) : Decidable (pyIn n h) := by
  unfold pyIn; infer_instance

/-- Left curly brace character (written via its code point). -/
def lbrace : Char := Char.ofNat 123

/-- Right curly brace character (written via its code point). -/
def rbrace : Char := Char.ofNat 125

/-- Python `dict.get key default` on an insertion-ordered association list: the
last binding of the key wins, absent key yields the default. -/
def pyGet (fields : List (String × JVal)) (k : String) (d : JVal) : JVal :=
  match (fields.reverse.lookup k) with
  | some v => v
  | none => d

/-! Part 1: a recursive-descent JSON parser over character lists, modelling `json.loads`. -/

/-- JSON insignificant whitespace (as in CPython's `json` module). -/
def isJsonWs (c : Char) : Bool := c = ' ' || c = '\t' || c = '\n' || c = '\r'

/-- Skip insignificant JSON whitespace. -/
def skipWs (l : List Char) : List Char := l.dropWhile isJsonWs

/-- Value of one hexadecimal digit. -/
def hexVal (c : Char) : Option Nat :=
  if '0' ≤ c ∧ c ≤ '9' then some (c.toNat - '0'.toNat)
  else if 'a' ≤ c ∧ c ≤ 'f' then some (c.toNat - 'a'.toNat + 10)
  else if 'A' ≤ c ∧ c ≤ 'F' then some (c.toNat - 'A'.toNat + 10)
  else none

/-- Decode a single-character string escape (`\" \\ \/ \b \f \n \r \t`). -/
def escChar (e : Char) : Option Char :=
  if e = '"' then some '"'
  else if e = '\\' then some '\\'
  else if e = '/' then some '/'
  else if e = 'b' then some '\x08'
  else if e = 'f' then some '\x0c'
  else if e = 'n' then some '\n'
  else if e = 'r' then some '\r'
  else if e = 't' then some '\t'
  else none

/-- Parse the body of a JSON string (the opening quote already consumed);
returns the decoded characters and the rest of the input.  Raw control
characters are rejected (strict mode), the standard escapes and `\uXXXX`
are decoded. -/
def parseStrBody : List Char → Option (List Char × List Char)
  | [] => none
  | c :: t =>
    if c = '"' then some ([], t)
    else if c = '\\' then
      match t with
      | [] => none
      | e :: t2 =>
        if e = 'u' then
          match t2 with
          | a :: b :: c1 :: d1 :: t3 =>
            match hexVal a, hexVal b, hexVal c1, hexVal d1 with
            | some ha, some hb, some hc, some hd =>
              match parseStrBody t3 with
              | some (s, r) =>
                some (Char.ofNat (((ha * 16 + hb) * 16 + hc) * 16 + hd) :: s, r)
              | none => none
            | _, _, _, _ => none
          | _ => none
        else
          match escChar e with
          | some d =>
            match parseStrBody t2 with
            | some (s, r) => some (d :: s, r)
            | none => none
          | none => none
    else if c.toNat < 32 then none
    else
      match parseStrBody t with
      | some (s, r) => some (c :: s, r)
      | none => none

/-- Split off a maximal run of decimal digits. -/
def spanDigits (l : List Char) : List Char × List Char :=
  (l.takeWhile Char.isDigit, l.dropWhile Char.isDigit)

/-- Digits to a natural number (most significant first). -/
def digitsToNat (ds : List Char) : Nat :=
  ds.foldl (fun acc c => acc * 10 + (c.toNat - '0'.toNat)) 0

/-- Parse a JSON integer literal: optional minus sign, then digits with no
redundant leading zero, not followed by a fraction or exponent (the
embedding models JSON numbers as integers). -/
def parseNum (l : List Char) : Option (Int × List Char) :=
  let core (m : List Char) (mkInt : Nat → Int) : Option (Int × List Char) :=
    match spanDigits m with
    | ([], _) => none
    | (d :: ds, rest) =>
      if d = '0' ∧ ds ≠ [] then none
      else
        match rest with
        | r :: _ => if r = '.' ∨ r = 'e' ∨ r = 'E' then none
                    else some (mkInt (digitsToNat (d :: ds)), rest)
        | [] => some (mkInt (digitsToNat (d :: ds)), rest)
  match l with
  | '-' :: t => core t (fun n => -(n : Int))
  | _ => core l (fun n => (n : Int))

/-- Does the input start with the given literal characters?  Returns the
rest if so. -/
def stripLit : List Char → List Char → Option (List Char)
  | [], l => some l
  | c :: cs, x :: xs => if c = x then stripLit cs xs else none
  | _ :: _, [] => none

/-- Parser tasks: a value, the inside of an object (start, or member loop
with accumulator), the inside of an array (start, or item loop). -/
inductive PTask where
  | val : PTask
  | objStart : PTask
  | members : List (String × JVal) → PTask
  | arrStart : PTask
  | items : List JVal → PTask

/-- Parse one JSON production (fuelled, structurally recursive on the fuel;
`parseJson` supplies fuel ample for any input). -/
def parseP : Nat → PTask → List Char → Option (JVal × List Char)
  | 0, _, _ => none
  | fuel + 1, task, l =>
    match task with
    | .val =>
      match skipWs l with
      | [] => none
      | c :: t =>
        if c = '"' then
          match parseStrBody t with
          | some (s, r) => some (.str ⟨s⟩, r)
          | none => none
        else if c = lbrace then parseP fuel .objStart t
        else if c = '[' then parseP fuel .arrStart t
        else
          match stripLit ['t', 'r', 'u', 'e'] (c :: t) with
          | some r => some (.bool true, r)
          | none =>
            match stripLit ['f', 'a', 'l', 's', 'e'] (c :: t) with
            | some r => some (.bool false, r)
            | none =>
              match stripLit ['n', 'u', 'l', 'l'] (c :: t) with
              | some r => some (.null, r)
              | none =>
                match parseNum (c :: t) with
                | some (n, r) => some (.num n, r)
                | none => none
    | .objStart =>
      match skipWs l with
      | [] => none
      | c :: t =>
        if c = rbrace then some (.obj [], t)
        else parseP fuel (.members []) (c :: t)
    | .members acc =>
      match skipWs l with
      | c :: t =>
        if c = '"' then
          match parseStrBody t with
          | none => none
          | some (k, r1) =>
            match skipWs r1 with
            | ':' :: r2 =>
              match parseP fuel .val r2 with
              | none => none
              | some (v, r3) =>
                match skipWs r3 with
                | ',' :: r4 => parseP fuel (.members (acc ++ [(⟨k⟩, v)])) r4
                | d :: r4 =>
                  if d = rbrace then some (.obj (acc ++ [(⟨k⟩, v)]), r4)
                  else none
                | [] => none
            | _ => none
        else none
      | [] => none
    | .arrStart =>
      match skipWs l with
      | [] => none
      | c :: t =>
        if c = ']' then some (.arr [], t)
        else parseP fuel (.items []) (c :: t)
    | .items acc =>
      match parseP fuel .val l with
      | none => none
      | some (v, r) =>
        match skipWs r with
        | ',' :: r2 => parseP fuel (.items (acc ++ [v])) r2
        | d :: r2 => if d = ']' then some (.arr (acc ++ [v]), r2) else none
        | [] => none

/-- Model of `json.loads`: parse a complete JSON document; trailing garbage, an empty
document, or any syntax error yields `none` (CPython raises
`json.JSONDecodeError` there). -/
def parseJson (s : String) : Option JVal :=
  match parseP (3 * s.data.length + 8) .val s.data with
  | some (v, rest) => if skipWs rest = [] then some v else none
  | none => none

/-! Part 2: the serializer, modelling `json.dump(..., ensure_ascii=False, indent=2)`. -/

/-- A run of `n` spaces. -/
def spaces (n : Nat) : String := ⟨List.replicate n ' '⟩

/-- Escape one character for a JSON string literal as CPython does with
`ensure_ascii=False`: only the quote, the backslash and control characters
are escaped; everything else (non-ASCII included) is emitted literally. -/
def escJsonChar (c : Char) : String :=
  if c = '"' then "\\\""
  else if c = '\\' then "\\\\"
  else if c = '\n' then "\\n"
  else if c = '\t' then "\\t"
  else if c = '\r' then "\\r"
  else if c = '\x08' then "\\b"
  else if c = '\x0c' then "\\f"
  else if c.toNat < 32 then
    let hx (n : Nat) : Char := if n < 10 then Char.ofNat ('0'.toNat + n)
                               else Char.ofNat ('a'.toNat + n - 10)
    ⟨['\\', 'u', '0', '0', hx (c.toNat / 16), hx (c.toNat % 16)]⟩
  else ⟨[c]⟩

/-- Serialize a string as a JSON string literal. -/
def quoteJson (s : String) : String :=
  "\"" ++ String.join (s.data.map escJsonChar) ++ "\""

/-- Serialize one value at indentation width `cur`, fuelled on the nesting
depth (structurally recursive on the fuel so that the kernel can evaluate
it; `dumpJson` supplies fuel exceeding any possible depth). -/
def dumpF : Nat → JVal → Nat → String
  | 0, _, _ => ""
  | fuel + 1, v, cur =>
    match v with
    | .null => "null"
    | .bool true => "true"
    | .bool false => "false"
    | .num n => toString n
    | .str s => quoteJson s
    | .arr [] => "[]"
    | .arr (x :: xs) =>
      "[\n" ++
      String.intercalate ",\n"
        ((x :: xs).map (fun e => spaces (cur + 2) ++ dumpF fuel e (cur + 2))) ++
      "\n" ++ spaces cur ++ "]"
    | .obj [] => String.singleton lbrace ++ String.singleton rbrace
    | .obj (f :: fs) =>
      String.singleton lbrace ++ "\n" ++
      String.intercalate ",\n"
        ((f :: fs).map (fun p =>
          spaces (cur + 2) ++ quoteJson p.1 ++ ": " ++ dumpF fuel p.2 (cur + 2))) ++
      "\n" ++ spaces cur ++ String.singleton rbrace

/-- Size (number of constructors, coarsely) of a value, used only as a fuel
bound dominating the nesting depth. -/
def sizeF : Nat → JVal → Nat
  | 0, _ => 1
  | fuel + 1, v =>
    match v with
    | .arr xs => (xs.map (sizeF fuel)).foldl (· + ·) 1
    | .obj fs => (fs.map (fun p => sizeF fuel p.2)).foldl (· + ·) 1
    | _ => 1

/-- Model of `json.dump(dati, f, ensure_ascii=False, indent=2)`: the exact text
CPython writes for the value (keys and items in association-list order). -/
def dumpJson (v : JVal) : String := dumpF (sizeF 1000000 v + 1) v 0

/-! Part 3: Python `str()` and `repr()` for interpolated values. -/

/-- Approximation of CPython `repr` on JSON-derived values (fuelled): used
only when a container is interpolated into an f-string; strings are wrapped
in single quotes without CPython's quote-escaping refinements (no sentence
under scrutiny interpolates a container). -/
def reprF : Nat → JVal → String
  | 0, _ => ""
  | fuel + 1, v =>
    match v with
    | .null => "None"
    | .bool true => "True"
    | .bool false => "False"
    | .num n => toString n
    | .str s => "'" ++ s ++ "'"
    | .arr xs => "[" ++ String.intercalate ", " (xs.map (reprF fuel)) ++ "]"
    | .obj fs =>
      String.singleton lbrace ++
      String.intercalate ", "
        (fs.map (fun p => "'" ++ p.1 ++ "': " ++ reprF fuel p.2)) ++
      String.singleton rbrace

/-- Python `str(x)` as used by f-string interpolation on JSON-derived
values. -/
def fstr (v : JVal) : String :=
  match v with
  | .str s => s
  | .null => "None"
  | .bool true => "True"
  | .bool false => "False"
  | .num n => toString n
  | .arr _ => reprF (sizeF 1000000 v + 1) v
  | .obj _ => reprF (sizeF 1000000 v + 1) v

/-- Python iteration `for s in x` on JSON-derived values: lists yield their
items, strings their characters, dicts their keys; scalars raise
`TypeError` (`none`). -/
def pyIterate : JVal → Option (List JVal)
  | .arr xs => some xs
  | .str s => some (s.data.map (fun c => .str (String.singleton c)))
  | .obj fs => some (fs.map (fun p => .str p.1))
  | _ => none

/-! Part 4: the program itself, `src/ai_cv_vertetajs.py`. -/

/-- The environment a run executes in: the initial filesystem (reads), the
`Path("sample_inputs").glob("cv*.txt")` enumeration, whether the
`OpenAI(api_key=API_KEY)` constructor raises (it is OUTSIDE the `try` of
`izsaukt_modeli`; `some msg` models a raised exception, e.g. a missing
credential), the completion service's behaviour per prompt (`.error msg`
models any exception raised by `client.chat.completions.create` or while
extracting `response.choices[0].message.content`; `.ok text` the returned
message text), and `datetime.now().strftime("%Y-%m-%d %H:%M")`. -/
structure Env where
  fs : String → Option String
  cvFiles : List String
  clientExc : Option String
  call : String → Except String String
  now : String

/-- Function `nolasit_failu`: read a text file and return its stripped content, or
an empty string plus a console warning when the file is absent
(`FileNotFoundError`). -/
def nolasit_failu (fs : String → Option String) (cels : String) :
    String × List String :=
  match fs cels with
  | some s => (pyStrip s, [])
  | none => ("", ["⚠️ Nevar atrast failu: " ++ cels])

/-- The fixed prompt text before the job description (the f-string of
`izveidot_promptu` up to `{jd_texts}`; `{{`/`}}` in the source are literal
braces). -/
def promptHead : String :=
  "Tu esi HR speciālists, kas vērtē kandidātu CV atbilstību darba aprakstam (JD).\nAnalizē abus tekstus un sniedz precīzu JSON atbildi ar šādu struktūru:\n\x7b\n  \"match_score\": 0-100,\n  \"summary\": \"Īss apraksts, cik labi CV atbilst JD.\",\n  \"strengths\": [\"Galvenās prasmes/pieredze no CV, kas atbilst JD\"],\n  \"missing_requirements\": [\"Svarīgas JD prasības, kas CV nav redzamas\"],\n  \"verdict\": \"strong match | possible match | not a match\"\n\x7d\n\n=== DARBA APRAKSTS ===\n"

/-- The fixed prompt text between the job description and the CV text. -/
def promptMid : String := "\n\n=== KANDIDĀTA CV ===\n"

/-- Function `izveidot_promptu`: build the instruction prompt from the JD and CV
texts and write it (stripped) to the fixed debug file `prompt.md`; returns
the stripped prompt and the file write it performs. -/
def izveidot_promptu (jd_texts cv_texts : String) :
    String × (String × String) :=
  let prompt :=
    pyStrip ("\n" ++ promptHead ++ jd_texts ++ promptMid ++ cv_texts ++ "\n")
  (prompt, ("prompt.md", prompt))

/-- Function `izsaukt_modeli`: construct the client (OUTSIDE the `try`: a
constructor failure is an uncaught exception, `Except.error`), issue the
completion request, parse the response as JSON; a service failure or a
non-`JSONDecodeError` extraction failure is caught and becomes
`{"error": str(e)}`, invalid JSON becomes
`{"error": "Invalid JSON", "raw_response": text}`.  Returns the result
value together with the console lines it printed. -/
def izsaukt_modeli (env : Env) (prompt : String) :
    Except String (JVal × List String) :=
  match env.clientExc with
  | some e => .error e
  | none =>
    match env.call prompt with
    | .error e =>
      .ok (.obj [("error", .str e)], ["❌ Kļūda, izsaucot modeli: " ++ e])
    | .ok rezultata_teksts =>
      match parseJson rezultata_teksts with
      | some v => .ok (v, [])
      | none =>
        .ok (.obj [("error", .str "Invalid JSON"),
                   ("raw_response", .str rezultata_teksts)],
             ["⚠️ Brīdinājums: Modelis neatgrieza derīgu JSON. Saglabāju kā neapstrādātu tekstu."])

/-- Function `saglabat_json`: the content written to a JSON report file. -/
def saglabat_json (dati : JVal) : String := dumpJson dati

/-- The bulleted-list block: `"".join(f"- {s}\n" for s in items)`. -/
def bullets (items : List JVal) : String :=
  String.join (items.map (fun s => "- " ++ fstr s ++ "\n"))

/-- A joined block `or "Nav norādīts."`: the empty string is falsy. -/
def blockOrDefault (items : List JVal) : String :=
  if bullets items = "" then "Nav norādīts." else bullets items

/-- The fixed Markdown template text before the timestamp. -/
def mdLit1 : String := "# CV Atbilstības Pārskats\n\n**Datums:** "

/-- The fixed Markdown template text before the score. -/
def mdLit2 : String := "\n**Atbilstības punktu skaits:** "

/-- The fixed Markdown template text before the summary. -/
def mdLit3 : String := "\n\n---\n\n### 📝 Kopsavilkums\n"

/-- The fixed Markdown template text before the strengths block. -/
def mdLit4 : String := "\n\n---\n\n### ✅ Stiprās puses\n"

/-- The fixed Markdown template text before the missing-requirements
block. -/
def mdLit5 : String := "\n\n---\n\n### ⚠️ Trūkstošās prasības\n"

/-- The fixed Markdown template text before the verdict. -/
def mdLit6 : String := "\n\n---\n\n### 💡 Spriedums\n**"

/-- The fixed Markdown template text after the verdict. -/
def mdLit7 : String := "**\n"

/-- The Markdown template of `genereet_parskatu` with the six interpolated
holes filled in. -/
def mdTemplate (datums score kopsavilkums stipras trukstosas spriedums :
    String) : String :=
  mdLit1 ++ datums ++ mdLit2 ++ score ++ mdLit3 ++ kopsavilkums ++
  mdLit4 ++ stipras ++ mdLit5 ++ trukstosas ++ mdLit6 ++ spriedums ++ mdLit7

/-- Function `genereet_parskatu`: render the Markdown report (the content written to
the file, i.e. the template stripped).  `none` models an uncaught
exception: `dati.get` on a non-dict (`AttributeError`) or iterating a
non-iterable `strengths`/`missing_requirements` value (`TypeError`). -/
def genereet_parskatu (now : String) (dati : JVal) : Option String :=
  match dati with
  | .obj fields =>
    match pyIterate (pyGet fields "strengths" (.arr [])),
          pyIterate (pyGet fields "missing_requirements" (.arr [])) with
    | some ss, some ms =>
      some (pyStrip (mdTemplate now
        (fstr (pyGet fields "match_score" (.str "N/A")))
        (fstr (pyGet fields "summary" (.str "Nav kopsavilkuma.")))
        (blockOrDefault ss)
        (blockOrDefault ms)
        (fstr (pyGet fields "verdict" (.str "Nav sprieduma.")))))
    | _, _ => none
  | _ => none

/-- Python `cv.split(".")[0]`: the filename truncated at its first dot (the whole
name when it has no dot). -/
def pySplitDot0 (s : String) : String :=
  ⟨s.data.takeWhile (fun c => c ≠ '.')⟩

/-- Mutable run state threaded through `main`: file writes in order and
console output in order. -/
structure St where
  writes : List (String × String)
  console : List String

/-- The observable outcome of a run of `main`: all file writes in order,
all console output in order, and `some msg` when an uncaught exception
aborted the process. -/
structure Run where
  writes : List (String × String)
  console : List String
  aborted : Option String

/-- One iteration of the `for cv in cv_fails` loop of `main` for candidate
filename `cv`: read the candidate file, skip it when empty, otherwise build
the prompt (writing `prompt.md`), call the model, write the JSON report and
the Markdown report.  The second component is `some msg` when an uncaught
exception aborts the run mid-iteration (partial writes are kept). -/
def stepCv (env : Env) (jd_texts : String) (st : St) (cv : String) :
    St × Option String :=
  let cv_cels := "sample_inputs/" ++ cv
  let (cv_texts, warns) := nolasit_failu env.fs cv_cels
  if cv_texts = "" then
    ({ st with console := st.console ++ warns ++
        ["⚠️ Izlaiž " ++ cv ++ " — nav datu."] }, none)
  else
    let st1 : St := { st with console := st.console ++ warns ++
        ["🔍 Vērtēju " ++ cv ++ "..."] }
    let (prompts, pwrite) := izveidot_promptu jd_texts cv_texts
    let st2 : St := { st1 with writes := st1.writes ++ [pwrite] }
    match izsaukt_modeli env prompts with
    | .error e => (st2, some e)
    | .ok (rezultats, logs) =>
      let st3 : St := { st2 with console := st2.console ++ logs }
      let nosaukums := pySplitDot0 cv
      let json_fails := "outputs/" ++ nosaukums ++ ".json"
      let md_fails := "outputs/" ++ nosaukums ++ "_report.md"
      let st4 : St := { st3 with
        writes := st3.writes ++ [(json_fails, saglabat_json rezultats)] }
      match genereet_parskatu env.now rezultats with
      | none => (st4, some "TypeError")
      | some parskats =>
        ({ st4 with
            writes := st4.writes ++ [(md_fails, parskats)],
            console := st4.console ++
              ["✅ Sagatavots: " ++ json_fails ++ " un " ++ md_fails ++ "\n"] },
         none)

/-- The candidate loop of `main`: process the candidates in order, stopping
(with the abort message) at the first uncaught exception. -/
def runLoop (env : Env) (jd_texts : String) :
    List String → St → St × Option String
  | [], st => (st, none)
  | cv :: rest, st =>
    match stepCv env jd_texts st cv with
    | (st2, some e) => (st2, some e)
    | (st2, none) => runLoop env jd_texts rest st2

/-- Function `main`: read the job description (aborting the run early, with a fatal
console message and no file writes, when its stripped text is empty), then
process every discovered candidate file, and print the final status line
when no uncaught exception interrupted the loop. -/
def main_run (env : Env) : Run :=
  let c0 := ["🚀 AI darbināts CV vērtētājs tiek palaists...\n"]
  let (jd_texts, warns) := nolasit_failu env.fs "sample_inputs/jd.txt"
  if jd_texts = "" then
    { writes := [],
      console := c0 ++ warns ++ ["❌ Nav atrasts darba apraksta fails (jd.txt)."],
      aborted := none }
  else
    match runLoop env jd_texts env.cvFiles
        { writes := [], console := c0 ++ warns } with
    | (st, some e) => { writes := st.writes, console := st.console, aborted := some e }
    | (st, none) =>
      { writes := st.writes,
        console := st.console ++
          ["🎯 Visi CV ir novērtēti un rezultāti saglabāti mapē 'outputs'."],
        aborted := none }

/-- How many writes a run made to a given path. -/
def writesTo (ws : List (String × String)) (p : String) : Nat :=
  (ws.filter (fun w => w.1 = p)).length

/-- The content a path holds after all writes (full-overwrite semantics:
the last write wins); `none` when the path was never written. -/
def lastWrite (ws : List (String × String)) (p : String) : Option String :=
  (ws.filter (fun w => w.1 = p)).getLast?.map (fun w => w.2)

/-- Is the model result renderable by `genereet_parskatu` without an
uncaught exception: a dict whose `strengths` and `missing_requirements`
entries (an empty list when absent) are Python-iterable. -/
def renderOk (v : JVal) : Bool :=
  match v with
  | .obj fields =>
    (pyIterate (pyGet fields "strengths" (.arr []))).isSome &&
    (pyIterate (pyGet fields "missing_requirements" (.arr []))).isSome
  | _ => false

/-! Part 5: concrete scenario environments used by the closed theorems and
witnesses below. -/

/-- A run with no job-description file at all. -/
def envNoJd : Env where
  fs := fun _ => none
  cvFiles := ["cv1.txt"]
  clientExc := none
  call := fun _ => .ok "\x7b\x7d"
  now := "2025-10-12 09:00"

/-- A run whose job-description file exists but holds only whitespace, and
whose only candidate file holds only whitespace as well. -/
def envBlankJd : Env where
  fs := fun p =>
    if p = "sample_inputs/jd.txt" then some "  \n\t "
    else if p = "sample_inputs/cv1.txt" then some " \n "
    else none
  cvFiles := ["cv1.txt"]
  clientExc := none
  call := fun _ => .ok "\x7b\x7d"
  now := "2025-10-12 09:00"

/-- A healthy run whose completion service answers with text that is not
valid JSON. -/
def envRawText : Env where
  fs := fun p =>
    if p = "sample_inputs/jd.txt" then some "JD text"
    else if p = "sample_inputs/cv1.txt" then some "CV text"
    else none
  cvFiles := ["cv1.txt"]
  clientExc := none
  call := fun _ => .ok "not json"
  now := "2025-10-12 09:00"

/-- A run in which the `OpenAI(api_key=API_KEY)` constructor raises (for
example because the credential environment variable is unset). -/
def envNoKey : Env where
  fs := fun p =>
    if p = "sample_inputs/jd.txt" then some "JD text"
    else if p = "sample_inputs/cv1.txt" then some "CV text"
    else none
  cvFiles := ["cv1.txt"]
  clientExc := some "The api_key client option must be set"
  call := fun _ => .error "unreached"
  now := "2025-10-12 09:00"

/-- A run whose completion service returns `3` — syntactically valid JSON
that is not an object. -/
def envNumResp : Env where
  fs := fun p =>
    if p = "sample_inputs/jd.txt" then some "JD text"
    else if p = "sample_inputs/cv1.txt" then some "CV text"
    else none
  cvFiles := ["cv1.txt"]
  clientExc := none
  call := fun _ => .ok "3"
  now := "2025-10-12 09:00"

/-- A run with one candidate file that exists but is zero-length and a
second, healthy candidate after it. -/
def envEmptyCv : Env where
  fs := fun p =>
    if p = "sample_inputs/jd.txt" then some "JD text"
    else if p = "sample_inputs/cv1.txt" then some ""
    else if p = "sample_inputs/cv2.txt" then some "CV two"
    else none
  cvFiles := ["cv1.txt", "cv2.txt"]
  clientExc := none
  call := fun _ => .ok "\x7b\"verdict\": \"ok\"\x7d"
  now := "2025-10-12 09:00"

/-- The response text of the specification's `cv_alice` scenario. -/
def aliceText : String :=
  "\x7b\"match_score\": 72, \"summary\": \"Solid backend experience, junior on leadership scope\", \"strengths\": [\"Go expertise\"], \"missing_requirements\": [\"5 years seniority\"], \"verdict\": \"possible match\"\x7d"

/-- The evaluation object of the specification's `cv_alice` scenario. -/
def aliceObj : JVal :=
  .obj [("match_score", .num 72),
        ("summary", .str "Solid backend experience, junior on leadership scope"),
        ("strengths", .arr [.str "Go expertise"]),
        ("missing_requirements", .arr [.str "5 years seniority"]),
        ("verdict", .str "possible match")]

/-- The specification's `cv_alice` scenario environment. -/
def envAlice : Env where
  fs := fun p =>
    if p = "sample_inputs/jd.txt" then some "Senior backend engineer, 5 years Go"
    else if p = "sample_inputs/cv_alice.txt" then some "3 years Go, led a team"
    else none
  cvFiles := ["cv_alice.txt"]
  clientExc := none
  call := fun _ => .ok aliceText
  now := "2025-10-12 09:00"

/-- A run on a candidate file whose name contains several dots. -/
def envDots : Env where
  fs := fun p =>
    if p = "sample_inputs/jd.txt" then some "JD text"
    else if p = "sample_inputs/cv.v2.final.txt" then some "CV text"
    else none
  cvFiles := ["cv.v2.final.txt"]
  clientExc := none
  call := fun _ => .ok "\x7b\"verdict\": \"ok\"\x7d"
  now := "2025-10-12 09:00"

/-- A run with two candidate files whose names agree before the first dot,
and a completion service that answers differently for the two candidates
(it recognises the second candidate's CV text inside the prompt). -/
def envClash : Env where
  fs := fun p =>
    if p = "sample_inputs/jd.txt" then some "JD text"
    else if p = "sample_inputs/cv.a.txt" then some "ALPHA"
    else if p = "sample_inputs/cv.b.txt" then some "BETA"
    else none
  cvFiles := ["cv.a.txt", "cv.b.txt"]
  clientExc := none
  call := fun p =>
    if pyIn "BETA" p then .ok "\x7b\"verdict\": \"second\"\x7d"
    else .ok "\x7b\"verdict\": \"first\"\x7d"
  now := "2025-10-12 09:00"

/-- A run with two healthy candidates, used to observe which prompt the
debug file `prompt.md` holds at the end. -/
def envTwoCv : Env where
  fs := fun p =>
    if p = "sample_inputs/jd.txt" then some "JD text"
    else if p = "sample_inputs/cv1.txt" then some "first CV"
    else if p = "sample_inputs/cv2.txt" then some "second CV"
    else none
  cvFiles := ["cv1.txt", "cv2.txt"]
  clientExc := none
  call := fun _ => .ok "\x7b\"verdict\": \"ok\"\x7d"
  now := "2025-10-12 09:00"

/-! Part 6: supporting lemmas. -/

theorem length_dropWhile_le (p : Char → Bool) (t : List Char) :
    (List.dropWhile p t).length ≤ t.length := by
  induction t with
  | nil => simp
  | cons a t ih =>
    by_cases h : p a <;> simp [List.dropWhile_cons, h] <;> omega

/-- A list left unchanged by `dropWhile` and nonempty has a head the
predicate rejects. -/
theorem head_false_of_dropWhile_self (p : Char → Bool) (a : Char)
    (t : List Char) (h : List.dropWhile p (a :: t) = a :: t) : p a = false := by
  cases hpa : p a with
  | false => rfl
  | true =>
    rw [List.dropWhile_cons_of_pos hpa] at h
    have hle := length_dropWhile_le p t
    rw [h] at hle
    simp at hle

/-- The `dropWhile` of an append whose left part is nonempty and survives
`dropWhile` unchanged keeps everything. -/
theorem dropWhile_append_self (p : Char → Bool) (x y : List Char)
    (hx : List.dropWhile p x = x) (hne : x ≠ []) :
    List.dropWhile p (x ++ y) = x ++ y := by
  cases x with
  | nil => exact absurd rfl hne
  | cons a t =>
    have ha := head_false_of_dropWhile_self p a t hx
    simp only [List.cons_append]
    rw [List.dropWhile_cons_of_neg (by simp [ha])]

/-- The `dropWhile` of an append distributes when the left part does not
vanish entirely. -/
theorem dropWhile_append_left (p : Char → Bool) (x y : List Char)
    (h : List.dropWhile p x ≠ []) :
    List.dropWhile p (x ++ y) = List.dropWhile p x ++ y := by
  induction x with
  | nil => simp at h
  | cons a t ih =>
    cases hpa : p a with
    | true =>
      rw [List.dropWhile_cons_of_pos hpa] at h ⊢
      simpa [List.cons_append, List.dropWhile_cons_of_pos hpa] using ih h
    | false =>
      rw [List.cons_append, List.dropWhile_cons_of_neg (by simp [hpa]),
        List.dropWhile_cons_of_neg (by simp [hpa]), List.cons_append]

/-- Build an infix witness from an explicit decomposition. -/
theorem infix_of_parts {l pre mid suf : List Char}
    (h : l = pre ++ (mid ++ suf)) : mid <:+: l :=
  ⟨pre, suf, by rw [h]; simp⟩

/-- Definitional unfolding of `pyStrip` at the level of character lists. -/
theorem pyStrip_data (s : String) : (pyStrip s).data = pyStripList s.data := rfl

set_option maxRecDepth 4000 in
/-- What `str.strip()` does to a built prompt whose CV text is nonempty
with no trailing whitespace: exactly the template's outer newlines go. -/
theorem izveidot_data (jd cv : String) (hne : cv.data ≠ [])
    (hcv : cv.data.reverse.dropWhile isWs = cv.data.reverse) :
    ((izveidot_promptu jd cv).1).data =
      promptHead.data ++ (jd.data ++ (promptMid.data ++ cv.data)) := by
  have hrne : cv.data.reverse ≠ [] := by
    simpa using hne
  show pyStripList _ = _
  unfold pyStripList
  simp only [String.data_append, List.append_assoc]
  rw [List.singleton_append,
    List.dropWhile_cons_of_pos (show isWs '\n' = true by decide)]
  rw [dropWhile_append_self isWs promptHead.data _ (by decide) (by decide)]
  simp only [List.reverse_append, List.append_assoc]
  rw [show (['\n'] : List Char).reverse = ['\n'] from rfl]
  rw [List.singleton_append,
    List.dropWhile_cons_of_pos (show isWs '\n' = true by decide)]
  rw [dropWhile_append_self isWs cv.data.reverse _ hcv hrne]
  simp

set_option maxRecDepth 4000 in
/-- What `str.strip()` does to a built prompt whose CV text is empty: the
strip eats back into the template's trailing `=== KANDIDĀTA CV ===`
newline. -/
theorem izveidot_data_empty (jd : String) :
    ((izveidot_promptu jd "").1).data =
      promptHead.data ++ (jd.data ++ "\n\n=== KANDIDĀTA CV ===".data) := by
  show pyStripList _ = _
  unfold pyStripList
  simp only [String.data_append, List.append_assoc]
  rw [List.singleton_append,
    List.dropWhile_cons_of_pos (show isWs '\n' = true by decide)]
  rw [dropWhile_append_self isWs promptHead.data _ (by decide) (by decide)]
  simp only [List.reverse_append, List.append_assoc, List.nil_append]
  rw [show (['\n'] : List Char).reverse = ['\n'] from rfl]
  rw [List.singleton_append,
    List.dropWhile_cons_of_pos (show isWs '\n' = true by decide)]
  rw [dropWhile_append_left isWs promptMid.data.reverse _ (by decide)]
  rw [show List.dropWhile isWs promptMid.data.reverse
        = ("\n\n=== KANDIDĀTA CV ===" : String).data.reverse from by decide]
  simp

set_option maxRecDepth 4000 in
/-- What `str.strip()` does to a rendered Markdown report: the template
starts with a `#` and ends with `**` plus one newline, so exactly that
final newline goes. -/
theorem genereet_strip (a b c d e f : String) :
    (pyStrip (mdTemplate a b c d e f)).data =
      mdLit1.data ++ (a.data ++ (mdLit2.data ++ (b.data ++ (mdLit3.data ++
      (c.data ++ (mdLit4.data ++ (d.data ++ (mdLit5.data ++ (e.data ++
      (mdLit6.data ++ (f.data ++ ['*', '*']))))))))))) := by
  rw [pyStrip_data]
  unfold pyStripList mdTemplate
  simp only [String.data_append, List.append_assoc]
  rw [dropWhile_append_self isWs mdLit1.data _ (by decide) (by decide)]
  simp only [List.reverse_append, List.append_assoc]
  rw [dropWhile_append_left isWs mdLit7.data.reverse _ (by decide)]
  rw [show List.dropWhile isWs mdLit7.data.reverse = ['*', '*'] from by decide]
  simp

/-- Unfolding of `genereet_parskatu` on a dict whose two list fields are
iterable. -/
theorem genereet_eq (now : String) (fields : List (String × JVal))
    (ss ms : List JVal)
    (hs : pyIterate (pyGet fields "strengths" (.arr [])) = some ss)
    (hm : pyIterate (pyGet fields "missing_requirements" (.arr [])) = some ms) :
    genereet_parskatu now (.obj fields) =
      some (pyStrip (mdTemplate now
        (fstr (pyGet fields "match_score" (.str "N/A")))
        (fstr (pyGet fields "summary" (.str "Nav kopsavilkuma.")))
        (blockOrDefault ss)
        (blockOrDefault ms)
        (fstr (pyGet fields "verdict" (.str "Nav sprieduma."))))) := by
  simp only [genereet_parskatu, hs, hm]

/-- A renderable value always renders. -/
theorem genereet_of_renderOk (v : JVal) (h : renderOk v = true) (now : String) :
    ∃ out, genereet_parskatu now v = some out := by
  cases v with
  | obj fields =>
    unfold renderOk at h
    rw [Bool.and_eq_true, Option.isSome_iff_exists, Option.isSome_iff_exists] at h
    obtain ⟨⟨ss, hs⟩, ⟨ms, hm⟩⟩ := h
    exact ⟨_, genereet_eq now fields ss ms hs hm⟩
  | null => simp [renderOk] at h
  | bool b => simp [renderOk] at h
  | num n => simp [renderOk] at h
  | str s => simp [renderOk] at h
  | arr xs => simp [renderOk] at h

/-- The debug-file write of `izveidot_promptu` targets `prompt.md` and
carries exactly the returned prompt. -/
theorem izveidot_snd (jd cv : String) :
    (izveidot_promptu jd cv).2 = ("prompt.md", (izveidot_promptu jd cv).1) := rfl

/-- The success path of one candidate iteration: nonempty candidate text,
a returned model value, and a renderable value give exactly three writes —
the debug prompt, the JSON report, the Markdown report — plus the search
and done console lines. -/
theorem stepCv_ok (env : Env) (jd : String) (st : St) (cv : String)
    (v : JVal) (logs : List String) (md : String)
    (hne : (nolasit_failu env.fs ("sample_inputs/" ++ cv)).1 ≠ "")
    (hmod : izsaukt_modeli env
      (izveidot_promptu jd (nolasit_failu env.fs ("sample_inputs/" ++ cv)).1).1
      = .ok (v, logs))
    (hmd : genereet_parskatu env.now v = some md) :
    stepCv env jd st cv =
      ({ writes := st.writes ++
          [("prompt.md",
            (izveidot_promptu jd
              (nolasit_failu env.fs ("sample_inputs/" ++ cv)).1).1),
           ("outputs/" ++ pySplitDot0 cv ++ ".json", saglabat_json v),
           ("outputs/" ++ pySplitDot0 cv ++ "_report.md", md)],
         console := st.console ++
           (nolasit_failu env.fs ("sample_inputs/" ++ cv)).2 ++
           ["🔍 Vērtēju " ++ cv ++ "..."] ++ logs ++
           ["✅ Sagatavots: " ++ ("outputs/" ++ pySplitDot0 cv ++ ".json") ++
            " un " ++ ("outputs/" ++ pySplitDot0 cv ++ "_report.md") ++ "\n"] },
       none) := by
  simp only [stepCv, hne, if_false, hmod, hmd]
  simp [izveidot_snd, List.append_assoc]

/-- The debug prompt file never collides with a JSON report path. -/
theorem prompt_ne_json (b : String) :
    ("prompt.md" : String) ≠ "outputs/" ++ b ++ ".json" := by
  intro h
  have h1 : ("prompt.md" : String).data.head? = some 'p' := rfl
  have h2 : ("outputs/" ++ b ++ ".json" : String).data.head? = some 'o' := rfl
  rw [h, h2] at h1
  simp at h1

/-- The debug prompt file never collides with a Markdown report path. -/
theorem prompt_ne_md (b : String) :
    ("prompt.md" : String) ≠ "outputs/" ++ b ++ "_report.md" := by
  intro h
  have h1 : ("prompt.md" : String).data.head? = some 'p' := rfl
  have h2 : ("outputs/" ++ b ++ "_report.md" : String).data.head? = some 'o' := rfl
  rw [h, h2] at h1
  simp at h1

/-- A candidate's JSON report path and Markdown report path always
differ. -/
theorem json_ne_md (b : String) :
    ("outputs/" ++ b ++ ".json" : String) ≠ "outputs/" ++ b ++ "_report.md" := by
  intro h
  have hl := congrArg String.length h
  have e1 : ("outputs/" : String).length = 8 := rfl
  have e2 : (".json" : String).length = 5 := rfl
  have e3 : ("_report.md" : String).length = 10 := rfl
  rw [String.length_append, String.length_append, String.length_append,
    String.length_append, e1, e2, e3] at hl
  omega

/-! Part 7: the claims. -/

/-- C4: if the job-description file is absent, `main` prints the read
warning and the fatal message and returns early: no candidate is processed
(no other console line appears, in particular not the final status line)
and zero output files are written in that run. -/
theorem C4_missing_jd_early_return (env : Env)
    (h : env.fs "sample_inputs/jd.txt" = none) :
    main_run env =
      { writes := [],
        console := ["🚀 AI darbināts CV vērtētājs tiek palaists...\n",
                    "⚠️ Nevar atrast failu: sample_inputs/jd.txt",
                    "❌ Nav atrasts darba apraksta fails (jd.txt)."],
        aborted := none } := by
  simp [main_run, nolasit_failu, h]

/-- Witness for C4 at the concrete environment `envNoJd`. -/
theorem C4_missing_jd_early_return_witness :
    (main_run envNoJd).writes = [] ∧ (main_run envNoJd).aborted = none :=
  ⟨by rw [C4_missing_jd_early_return envNoJd rfl],
   by rw [C4_missing_jd_early_return envNoJd rfl]⟩

/-- C7: a candidate file that exists but is zero-length produces no writes,
only the skip warning, and the loop continues with the remaining
candidates from the same state (so they are processed exactly as they
would have been). -/
theorem C7_empty_candidate_skipped (env : Env) (jd : String) (st : St)
    (cv : String) (rest : List String)
    (h : env.fs ("sample_inputs/" ++ cv) = some "") :
    stepCv env jd st cv =
      ({ st with console := st.console ++
          ["⚠️ Izlaiž " ++ cv ++ " — nav datu."] }, none) ∧
    runLoop env jd (cv :: rest) st =
      runLoop env jd rest
        { st with console := st.console ++
            ["⚠️ Izlaiž " ++ cv ++ " — nav datu."] } := by
  have h1 : nolasit_failu env.fs ("sample_inputs/" ++ cv) = ("", []) := by
    simp [nolasit_failu, h]
    rfl
  have h2 : stepCv env jd st cv =
      ({ st with console := st.console ++
          ["⚠️ Izlaiž " ++ cv ++ " — nav datu."] }, none) := by
    simp [stepCv, h1]
  exact ⟨h2, by rw [runLoop, h2]⟩

/-- Witness for C7 at the concrete environment `envEmptyCv` (first
candidate empty, second healthy). -/
theorem C7_empty_candidate_skipped_witness :
    stepCv envEmptyCv "JD text" ⟨[], []⟩ "cv1.txt" =
      ({ writes := [],
         console := ["⚠️ Izlaiž cv1.txt — nav datu."] }, none) := by
  have h := (C7_empty_candidate_skipped envEmptyCv "JD text" ⟨[], []⟩
    "cv1.txt" [] rfl).1
  simpa using h

/-- C9: a job-description file that exists but holds only whitespace is
treated exactly like an absent one (the loaded text is stripped before
the emptiness test): the run aborts with the fatal message, processes no
candidate and writes nothing; likewise a whitespace-only candidate file is
skipped exactly like a zero-length one. -/
theorem C9_whitespace_like_missing :
    (∀ (env : Env) (s : String), env.fs "sample_inputs/jd.txt" = some s →
      pyStrip s = "" →
      main_run env =
        { writes := [],
          console := ["🚀 AI darbināts CV vērtētājs tiek palaists...\n",
                      "❌ Nav atrasts darba apraksta fails (jd.txt)."],
          aborted := none }) ∧
    (∀ (env : Env) (jd : String) (st : St) (cv : String) (s : String),
      env.fs ("sample_inputs/" ++ cv) = some s → pyStrip s = "" →
      stepCv env jd st cv =
        ({ st with console := st.console ++
            ["⚠️ Izlaiž " ++ cv ++ " — nav datu."] }, none)) := by
  constructor
  · intro env s h hstrip
    simp [main_run, nolasit_failu, h, hstrip]
  · intro env jd st cv s h hstrip
    have h1 : nolasit_failu env.fs ("sample_inputs/" ++ cv) = ("", []) := by
      simp [nolasit_failu, h, hstrip]
    simp [stepCv, h1]

/-- Witness for C9 at the concrete environment `envBlankJd` (whitespace-only
job description and candidate). -/
theorem C9_whitespace_like_missing_witness :
    (main_run envBlankJd).writes = [] ∧
    stepCv envBlankJd "JD" ⟨[], []⟩ "cv1.txt" =
      ({ writes := [], console := ["⚠️ Izlaiž cv1.txt — nav datu."] }, none) := by
  constructor
  · rw [C9_whitespace_like_missing.1 envBlankJd "  \n\t " rfl rfl]
  · have h := C9_whitespace_like_missing.2 envBlankJd "JD" ⟨[], []⟩
      "cv1.txt" " \n " rfl rfl
    simpa using h

/-- C2 (amended): whenever the client constructor does not itself raise,
`izsaukt_modeli` never lets an exception escape — every service failure
comes back as a dict carrying the failure's description, and a response
that is not valid JSON comes back as the invalid-JSON error dict. -/
theorem C2_izsaukt_contains_failures (env : Env) (prompt : String)
    (h : env.clientExc = none) :
    (∃ v logs, izsaukt_modeli env prompt = .ok (v, logs)) ∧
    (∀ e, env.call prompt = .error e →
      izsaukt_modeli env prompt =
        .ok (.obj [("error", .str e)], ["❌ Kļūda, izsaucot modeli: " ++ e])) ∧
    (∀ t, env.call prompt = .ok t → parseJson t = none →
      izsaukt_modeli env prompt =
        .ok (.obj [("error", .str "Invalid JSON"), ("raw_response", .str t)],
          ["⚠️ Brīdinājums: Modelis neatgrieza derīgu JSON. Saglabāju kā neapstrādātu tekstu."])) := by
  refine ⟨?_, ?_, ?_⟩
  · cases hc : env.call prompt with
    | error e =>
      exact ⟨.obj [("error", .str e)], ["❌ Kļūda, izsaucot modeli: " ++ e],
        by simp [izsaukt_modeli, h, hc]⟩
    | ok t =>
      cases hp : parseJson t with
      | none =>
        exact ⟨.obj [("error", .str "Invalid JSON"), ("raw_response", .str t)],
          ["⚠️ Brīdinājums: Modelis neatgrieza derīgu JSON. Saglabāju kā neapstrādātu tekstu."],
          by simp [izsaukt_modeli, h, hc, hp]⟩
      | some v => exact ⟨v, [], by simp [izsaukt_modeli, h, hc, hp]⟩
  · intro e hc
    simp [izsaukt_modeli, h, hc]
  · intro t hc hp
    simp [izsaukt_modeli, h, hc, hp]

/-- Witness for C2 (amended) at the concrete environment `envRawText`. -/
theorem C2_izsaukt_contains_failures_witness :
    izsaukt_modeli envRawText "p" =
      .ok (.obj [("error", .str "Invalid JSON"), ("raw_response", .str "not json")],
        ["⚠️ Brīdinājums: Modelis neatgrieza derīgu JSON. Saglabāju kā neapstrādātu tekstu."]) :=
  (C2_izsaukt_contains_failures envRawText "p" rfl).2.2 "not json" rfl rfl

/-- C2 (counterexample): a failure while constructing the client — which
happens outside the `try` of `izsaukt_modeli`, e.g. with the credential
environment variable unset — escapes `izsaukt_modeli` as an exception,
reaches the orchestration loop of `main`, and aborts the run after only
the debug prompt was written. -/
theorem C2_counterexample :
    izsaukt_modeli envNoKey "p" = .error "The api_key client option must be set" ∧
    (main_run envNoKey).aborted = some "The api_key client option must be set" ∧
    (main_run envNoKey).writes.map Prod.fst = ["prompt.md"] :=
  ⟨rfl, rfl, rfl⟩

/-- C3: when the service's response text is not valid JSON, the client
returns the error dict `{"error": "Invalid JSON", "raw_response": text}`
from which the raw response text is recoverable verbatim via `dict.get`,
and one candidate iteration writes exactly that object (serialized) to the
JSON report and its rendering to the Markdown report. -/
theorem C3_invalid_json_round_trip (env : Env) (jd : String) (st : St)
    (cv : String) (text : String)
    (hcl : env.clientExc = none)
    (hne : (nolasit_failu env.fs ("sample_inputs/" ++ cv)).1 ≠ "")
    (hcall : env.call
      (izveidot_promptu jd (nolasit_failu env.fs ("sample_inputs/" ++ cv)).1).1
      = .ok text)
    (hbad : parseJson text = none) :
    izsaukt_modeli env
      (izveidot_promptu jd (nolasit_failu env.fs ("sample_inputs/" ++ cv)).1).1
      = .ok (.obj [("error", .str "Invalid JSON"), ("raw_response", .str text)],
        ["⚠️ Brīdinājums: Modelis neatgrieza derīgu JSON. Saglabāju kā neapstrādātu tekstu."]) ∧
    pyGet [("error", .str "Invalid JSON"), ("raw_response", .str text)]
      "raw_response" .null = .str text ∧
    ∃ md, genereet_parskatu env.now
        (.obj [("error", .str "Invalid JSON"), ("raw_response", .str text)])
        = some md ∧
      stepCv env jd st cv =
        ({ writes := st.writes ++
            [("prompt.md",
              (izveidot_promptu jd
                (nolasit_failu env.fs ("sample_inputs/" ++ cv)).1).1),
             ("outputs/" ++ pySplitDot0 cv ++ ".json",
              saglabat_json
                (.obj [("error", .str "Invalid JSON"), ("raw_response", .str text)])),
             ("outputs/" ++ pySplitDot0 cv ++ "_report.md", md)],
           console := st.console ++
             (nolasit_failu env.fs ("sample_inputs/" ++ cv)).2 ++
             ["🔍 Vērtēju " ++ cv ++ "..."] ++
             ["⚠️ Brīdinājums: Modelis neatgrieza derīgu JSON. Saglabāju kā neapstrādātu tekstu."] ++
             ["✅ Sagatavots: " ++ ("outputs/" ++ pySplitDot0 cv ++ ".json") ++
              " un " ++ ("outputs/" ++ pySplitDot0 cv ++ "_report.md") ++ "\n"] },
         none) := by
  have hmod : izsaukt_modeli env
      (izveidot_promptu jd (nolasit_failu env.fs ("sample_inputs/" ++ cv)).1).1
      = .ok (.obj [("error", .str "Invalid JSON"), ("raw_response", .str text)],
        ["⚠️ Brīdinājums: Modelis neatgrieza derīgu JSON. Saglabāju kā neapstrādātu tekstu."]) := by
    simp [izsaukt_modeli, hcl, hcall, hbad]
  have hrend : renderOk
      (.obj [("error", .str "Invalid JSON"), ("raw_response", .str text)]) = true := rfl
  obtain ⟨md, hmd⟩ := genereet_of_renderOk _ hrend env.now
  refine ⟨hmod, rfl, md, hmd, ?_⟩
  exact stepCv_ok env jd st cv _ _ md hne hmod hmd

/-- Witness for C3 at the concrete environment `envRawText` (response text
`"not json"`). -/
theorem C3_invalid_json_round_trip_witness :
    pyGet [("error", .str "Invalid JSON"), ("raw_response", .str "not json")]
      "raw_response" .null = .str "not json" :=
  (C3_invalid_json_round_trip envRawText "JD text" ⟨[], []⟩ "cv1.txt"
    "not json" rfl (by decide) rfl rfl).2.1

/-- C1 (amended): for a candidate whose loaded text is non-empty after
stripping, one pipeline iteration writes exactly one JSON report and
exactly one Markdown report, provided the model call returns (the client
constructor did not raise) and the returned value is renderable — which
every error record and every well-formed result is.  (A returned value
that is valid JSON but not a renderable dict instead aborts the iteration
after only the JSON report; see the counterexample.) -/
theorem C1_one_json_one_md (env : Env) (jd : String) (st : St) (cv : String)
    (v : JVal) (logs : List String)
    (hne : (nolasit_failu env.fs ("sample_inputs/" ++ cv)).1 ≠ "")
    (hmod : izsaukt_modeli env
      (izveidot_promptu jd (nolasit_failu env.fs ("sample_inputs/" ++ cv)).1).1
      = .ok (v, logs))
    (hrend : renderOk v = true) :
    ∃ md, stepCv env jd st cv =
      ({ writes := st.writes ++
          [("prompt.md",
            (izveidot_promptu jd
              (nolasit_failu env.fs ("sample_inputs/" ++ cv)).1).1),
           ("outputs/" ++ pySplitDot0 cv ++ ".json", saglabat_json v),
           ("outputs/" ++ pySplitDot0 cv ++ "_report.md", md)],
         console := st.console ++
           (nolasit_failu env.fs ("sample_inputs/" ++ cv)).2 ++
           ["🔍 Vērtēju " ++ cv ++ "..."] ++ logs ++
           ["✅ Sagatavots: " ++ ("outputs/" ++ pySplitDot0 cv ++ ".json") ++
            " un " ++ ("outputs/" ++ pySplitDot0 cv ++ "_report.md") ++ "\n"] },
       none) ∧
      writesTo
        [("prompt.md",
          (izveidot_promptu jd
            (nolasit_failu env.fs ("sample_inputs/" ++ cv)).1).1),
         ("outputs/" ++ pySplitDot0 cv ++ ".json", saglabat_json v),
         ("outputs/" ++ pySplitDot0 cv ++ "_report.md", md)]
        ("outputs/" ++ pySplitDot0 cv ++ ".json") = 1 ∧
      writesTo
        [("prompt.md",
          (izveidot_promptu jd
            (nolasit_failu env.fs ("sample_inputs/" ++ cv)).1).1),
         ("outputs/" ++ pySplitDot0 cv ++ ".json", saglabat_json v),
         ("outputs/" ++ pySplitDot0 cv ++ "_report.md", md)]
        ("outputs/" ++ pySplitDot0 cv ++ "_report.md") = 1 := by
  obtain ⟨md, hmd⟩ := genereet_of_renderOk v hrend env.now
  refine ⟨md, stepCv_ok env jd st cv v logs md hne hmod hmd, ?_, ?_⟩
  · simp [writesTo, prompt_ne_json (pySplitDot0 cv),
      Ne.symm (json_ne_md (pySplitDot0 cv))]
  · simp [writesTo, prompt_ne_md (pySplitDot0 cv), json_ne_md (pySplitDot0 cv)]

/-- Witness for C1 (amended) at the concrete environment `envRawText`: the
model call returns the error record and both report files are written. -/
theorem C1_one_json_one_md_witness :
    ∃ md, stepCv envRawText "JD text" ⟨[], []⟩ "cv1.txt" =
      ({ writes :=
          [("prompt.md",
            (izveidot_promptu "JD text" "CV text").1),
           ("outputs/cv1.json",
            saglabat_json
              (.obj [("error", .str "Invalid JSON"), ("raw_response", .str "not json")])),
           ("outputs/cv1_report.md", md)],
         console :=
           ["🔍 Vērtēju cv1.txt...",
            "⚠️ Brīdinājums: Modelis neatgrieza derīgu JSON. Saglabāju kā neapstrādātu tekstu.",
            "✅ Sagatavots: outputs/cv1.json un outputs/cv1_report.md\n"] },
       none) := by
  obtain ⟨md, h, -, -⟩ := C1_one_json_one_md envRawText "JD text" ⟨[], []⟩
    "cv1.txt"
    (.obj [("error", .str "Invalid JSON"), ("raw_response", .str "not json")])
    ["⚠️ Brīdinājums: Modelis neatgrieza derīgu JSON. Saglabāju kā neapstrādātu tekstu."]
    (by decide) rfl rfl
  exact ⟨md, by simpa using h⟩

/-- C1 (counterexample): with a response of `3` — valid JSON, not a dict —
the candidate's text is non-empty and the model call returns, yet the
iteration writes the JSON report only: rendering raises, the run aborts,
and no Markdown report exists for the candidate. -/
theorem C1_counterexample :
    (nolasit_failu envNumResp.fs "sample_inputs/cv1.txt").1 ≠ "" ∧
    writesTo (main_run envNumResp).writes "outputs/cv1.json" = 1 ∧
    writesTo (main_run envNumResp).writes "outputs/cv1_report.md" = 0 ∧
    (main_run envNumResp).aborted = some "TypeError" :=
  ⟨by decide, rfl, rfl, rfl⟩

/-- Extending an infix on the left. -/
theorem infix_append_right {x m y : List Char} (h : m <:+: y) :
    m <:+: x ++ y := by
  obtain ⟨s, t, rfl⟩ := h
  exact ⟨x ++ s, t, by simp⟩

/-- A list is an infix of itself followed by anything. -/
theorem infix_head {m t : List Char} : m <:+: m ++ t :=
  ⟨[], t, by simp⟩

/-- C5: Markdown rendering is total on result dicts with any subset of the
five fields present (the two list fields, when present, being lists, as in
every well-formed result and every error record): it never fails, and it
substitutes the literal placeholder for each missing field and the
placeholder line for each empty list. -/
theorem C5_render_total_with_placeholders (now : String)
    (fields : List (String × JVal)) (ss ms : List JVal)
    (hs : pyIterate (pyGet fields "strengths" (.arr [])) = some ss)
    (hm : pyIterate (pyGet fields "missing_requirements" (.arr [])) = some ms) :
    ∃ out, genereet_parskatu now (.obj fields) = some out ∧
      (fields.reverse.lookup "match_score" = none → pyIn "N/A" out) ∧
      (fields.reverse.lookup "summary" = none → pyIn "Nav kopsavilkuma." out) ∧
      (ss = [] → pyIn "Nav norādīts." out) ∧
      (ms = [] → pyIn "Nav norādīts." out) ∧
      (fields.reverse.lookup "verdict" = none → pyIn "Nav sprieduma." out) := by
  refine ⟨_, genereet_eq now fields ss ms hs hm, ?_, ?_, ?_, ?_, ?_⟩
  · intro hmiss
    have hget : fstr (pyGet fields "match_score" (.str "N/A")) = "N/A" := by
      simp [pyGet, hmiss, fstr]
    unfold pyIn
    rw [genereet_strip, hget]
    exact infix_append_right (infix_append_right (infix_append_right
      infix_head))
  · intro hmiss
    have hget : fstr (pyGet fields "summary" (.str "Nav kopsavilkuma."))
        = "Nav kopsavilkuma." := by
      simp [pyGet, hmiss, fstr]
    unfold pyIn
    rw [genereet_strip, hget]
    exact infix_append_right (infix_append_right (infix_append_right
      (infix_append_right (infix_append_right infix_head))))
  · intro hemp
    have hget : blockOrDefault ss = "Nav norādīts." := by
      rw [hemp]; rfl
    unfold pyIn
    rw [genereet_strip, hget]
    exact infix_append_right (infix_append_right (infix_append_right
      (infix_append_right (infix_append_right (infix_append_right
      (infix_append_right infix_head))))))
  · intro hemp
    have hget : blockOrDefault ms = "Nav norādīts." := by
      rw [hemp]; rfl
    unfold pyIn
    rw [genereet_strip, hget]
    exact infix_append_right (infix_append_right (infix_append_right
      (infix_append_right (infix_append_right (infix_append_right
      (infix_append_right (infix_append_right (infix_append_right
      infix_head))))))))
  · intro hmiss
    have hget : fstr (pyGet fields "verdict" (.str "Nav sprieduma."))
        = "Nav sprieduma." := by
      simp [pyGet, hmiss, fstr]
    unfold pyIn
    rw [genereet_strip, hget]
    exact infix_append_right (infix_append_right (infix_append_right
      (infix_append_right (infix_append_right (infix_append_right
      (infix_append_right (infix_append_right (infix_append_right
      (infix_append_right (infix_append_right infix_head))))))))))

/-- Witness for C5 at the empty dict (all five fields missing). -/
theorem C5_render_total_with_placeholders_witness :
    ∃ out, genereet_parskatu "2025-10-12 09:00" (.obj []) = some out ∧
      pyIn "N/A" out ∧ pyIn "Nav kopsavilkuma." out ∧
      pyIn "Nav norādīts." out ∧ pyIn "Nav sprieduma." out := by
  obtain ⟨out, h1, h2, h3, h4, h5, h6⟩ :=
    C5_render_total_with_placeholders "2025-10-12 09:00" [] [] [] rfl rfl
  exact ⟨out, h1, h2 rfl, h3 rfl, h4 rfl, h6 rfl⟩

/-- C8 (amended): for every job-description text and every candidate text
with no trailing whitespace (as in `main`, which always passes stripped
texts), `izveidot_promptu` returns a single instruction string containing
both inputs verbatim as substrings and performs exactly one write, of that
returned string, to the fixed debug file `prompt.md`; in a multi-candidate
run the debug file ends up holding only the last processed candidate's
prompt.  (A candidate text with trailing whitespace is instead embedded
right-stripped — see the counterexample.) -/
theorem C8_prompt_embeds_inputs :
    (∀ jd cv : String, cv.data.reverse.dropWhile isWs = cv.data.reverse →
      pyIn jd (izveidot_promptu jd cv).1 ∧
      pyIn cv (izveidot_promptu jd cv).1 ∧
      (izveidot_promptu jd cv).2 =
        ("prompt.md", (izveidot_promptu jd cv).1)) ∧
    lastWrite (main_run envTwoCv).writes "prompt.md" =
      some (izveidot_promptu "JD text" "second CV").1 := by
  constructor
  · intro jd cv hcv
    refine ⟨?_, ?_, izveidot_snd jd cv⟩
    · unfold pyIn
      cases hd : cv.data with
      | nil =>
        have hcv0 : cv = "" := by
          cases cv with
          | mk d =>
            have hd2 : d = [] := hd
            subst hd2
            rfl
        rw [hcv0, izveidot_data_empty jd]
        exact infix_append_right infix_head
      | cons a t =>
        rw [izveidot_data jd cv (by rw [hd]; simp) hcv]
        exact infix_append_right infix_head
    · unfold pyIn
      cases hd : cv.data with
      | nil => exact List.nil_infix
      | cons a t =>
        rw [izveidot_data jd cv (by rw [hd]; simp) hcv, hd]
        exact infix_append_right (infix_append_right (infix_append_right
          (List.infix_refl _)))
  · rfl

/-- Witness for C8 (amended) at concrete texts. -/
theorem C8_prompt_embeds_inputs_witness :
    pyIn "the job" (izveidot_promptu "the job" "the cv").1 ∧
    pyIn "the cv" (izveidot_promptu "the job" "the cv").1 ∧
    (izveidot_promptu "the job" "the cv").2 =
      ("prompt.md", (izveidot_promptu "the job" "the cv").1) :=
  C8_prompt_embeds_inputs.1 "the job" "the cv" (by decide)

set_option maxRecDepth 40000 in
/-- C8 (counterexample): a candidate text with trailing whitespace is not
embedded verbatim — the final `strip()` of the prompt eats the trailing
whitespace, so the claim's universal quantification over every candidate
text fails. -/
theorem C8_counterexample : ¬ pyIn "zq " (izveidot_promptu "jd" "zq ").1 := by
  decide

set_option maxRecDepth 100000 in
/-- C6: in the specification's scenario — the completion service answers
with Alice's five-field object — the run writes `outputs/cv_alice.json`
holding exactly that object (its serialization parses back to the very
same value) and `outputs/cv_alice_report.md` holding a score line with the
value 72 and a `possible match` verdict line. -/
theorem C6_alice_scenario :
    parseJson aliceText = some aliceObj ∧
    lastWrite (main_run envAlice).writes "outputs/cv_alice.json" =
      some (dumpJson aliceObj) ∧
    parseJson (dumpJson aliceObj) = some aliceObj ∧
    lastWrite (main_run envAlice).writes "outputs/cv_alice_report.md" =
      some ((genereet_parskatu envAlice.now aliceObj).getD "") ∧
    pyIn "\n**Atbilstības punktu skaits:** 72\n"
      ((genereet_parskatu envAlice.now aliceObj).getD "") ∧
    pyIn "\n**possible match**"
      ((genereet_parskatu envAlice.now aliceObj).getD "") :=
  ⟨rfl, rfl, rfl, rfl, by decide, by decide⟩

set_option maxRecDepth 100000 in
/-- C10: the output base name is the candidate filename truncated at its
FIRST dot (`split(".")[0]`), not the filename minus its extension — so
`cv.v2.final.txt` reports to `outputs/cv.json` and `outputs/cv_report.md`,
and two candidates agreeing before their first dot write to the same two
report paths, the later run silently overwriting the earlier one's
content. -/
theorem C10_first_dot_truncation :
    pySplitDot0 "cv.v2.final.txt" = "cv" ∧
    (main_run envDots).writes.map Prod.fst =
      ["prompt.md", "outputs/cv.json", "outputs/cv_report.md"] ∧
    (main_run envClash).writes.map Prod.fst =
      ["prompt.md", "outputs/cv.json", "outputs/cv_report.md",
       "prompt.md", "outputs/cv.json", "outputs/cv_report.md"] ∧
    writesTo (main_run envClash).writes "outputs/cv.json" = 2 ∧
    lastWrite (main_run envClash).writes "outputs/cv.json" =
      some (dumpJson (.obj [("verdict", .str "second")])) ∧
    dumpJson (.obj [("verdict", .str "first")]) ≠
      dumpJson (.obj [("verdict", .str "second")]) :=
  ⟨rfl, rfl, rfl, rfl, rfl, by decide⟩
